import Mathlib

/-!
Verification development for a Discord OAuth2 verification bridge.

The repository is a Node.js bot: a chat command creates a pending
verification session (an entry of an in-memory `Map` keyed by user id,
holding the target guild id, a random `state` secret and a creation
timestamp), and an HTTP callback redeems the session, confirms the
identity with the OAuth2 provider and grants a role.

We shallowly embed the relevant code:
 * `src/utils/verification-store.js` — the session store
   (`addPending`, `verify`), modelled as an association list with
   explicit `now` timestamps.
 * `src/bot.js` `generateState` — the secret generator, modelled as a
   function of the two `Math.random()` mantissa values it consumes.
 * `src/utils/guild-settings.js` `getSettings` — modelled with an
   explicit heap so that JavaScript object-reference semantics (copy
   versus alias) are observable.
 * `src/web.js` `app.get("/callback")` — the redemption orchestrator,
   with the OAuth2 provider and the role-grant call as oracles and the
   grant invocations made observable in the result.
-/

namespace Verified

/-! ## Verification store (`src/utils/verification-store.js`)

The JS store is `Map<userId, { guildId, state, timestamp }>`.  We model
it as an association list with `Map.get` / `Map.set` / `Map.delete`
semantics; `Date.now()` becomes an explicit `now : Nat` argument.
-/

/-- One pending verification record: `{ guildId, state, timestamp }`. -/
structure SessionData where
  guildId : String
  state : String
  timestamp : Nat
deriving DecidableEq, Repr

/-- The in-memory store `Map<userId, SessionData>` as an association list. -/
abbrev Store := List (String × SessionData)

/-- `Map.prototype.get`: first entry with the given key. -/
def storeGet : Store → String → Option SessionData
  | [], _ => none
  | (k', v) :: rest, k => if k' = k then some v else storeGet rest k

/-- `Map.prototype.set`: replace the entry in place, else append. -/
def storeSet : Store → String → SessionData → Store
  | [], k, v => [(k, v)]
  | (k', v') :: rest, k, v =>
      if k' = k then (k, v) :: rest else (k', v') :: storeSet rest k v

/-- `Map.prototype.delete`: drop the entry with the given key. -/
def storeDelete : Store → String → Store
  | [], _ => []
  | (k', v) :: rest, k =>
      if k' = k then storeDelete rest k else (k', v) :: storeDelete rest k

/-- `const expirationTime = 5 * 60 * 1000` (five minutes, in ms). -/
def expirationTime : Nat := 5 * 60 * 1000

/-- The four exit branches of `VerificationStore.verify`.  The JS method
returns the record on the success branch and `null` on the other three;
the branches are distinguished in the source by their log lines and
side effects. -/
inductive VerifyResult where
  | ok (data : SessionData)
  | notFound
  | secretMismatch
  | expired
deriving DecidableEq, Repr

/-- `VerificationStore.addPending(userId, guildId, state)`:
`this.store.set(userId, { guildId, state, timestamp: Date.now() })`. -/
def addPending (now : Nat) (userId guildId state : String) (s : Store) : Store :=
  storeSet s userId ⟨guildId, state, now⟩

/-- `VerificationStore.verify(userId, state)`.  The presented secret is an
`Option` because the callback may destructure it from a composite state
with fewer than three fields (JS `undefined`).  Returns the branch taken
and the store after the call. -/
def verify (now : Nat) (userId : String) (presented : Option String) (s : Store) :
    VerifyResult × Store :=
  match storeGet s userId with
  | none => (.notFound, s)
  | some data =>
      if presented ≠ some data.state then
        (.secretMismatch, s)
      else if now - data.timestamp > expirationTime then
        (.expired, storeDelete s userId)
      else
        (.ok data, storeDelete s userId)

@[simp] theorem storeGet_storeSet_self (s : Store) (k : String) (v : SessionData) :
    storeGet (storeSet s k v) k = some v := by
  induction s with
  | nil => simp [storeSet, storeGet]
  | cons hd tl ih =>
      by_cases h : hd.1 = k
      · simp [storeSet, storeGet, h]
      · simp [storeSet, storeGet, h, ih]

@[simp] theorem storeGet_storeDelete_self (s : Store) (k : String) :
    storeGet (storeDelete s k) k = none := by
  induction s with
  | nil => simp [storeDelete, storeGet]
  | cons hd tl ih =>
      by_cases h : hd.1 = k
      · simp [storeDelete, h, ih]
      · simp [storeDelete, storeGet, h, ih]

/-- C1: after `create` stores a session, redeeming with the correct secret
within the expiration window returns the stored community id and deletes
the session, so a second identical call returns `NotFound`; success is
possible at most once per created session. -/
theorem redeem_after_create_single_use
    (store : Store) (t₀ t₁ t₂ : Nat) (u g sec : String)
    (h : t₁ - t₀ ≤ expirationTime) :
    verify t₁ u (some sec) (addPending t₀ u g sec store) =
      (.ok ⟨g, sec, t₀⟩, storeDelete (addPending t₀ u g sec store) u) ∧
    (verify t₂ u (some sec) (storeDelete (addPending t₀ u g sec store) u)).1 =
      .notFound := by
  constructor
  · unfold verify addPending
    rw [storeGet_storeSet_self]
    simp [Nat.not_lt.mpr h]
  · unfold verify
    rw [storeGet_storeDelete_self]

/-- C1 witness: concrete run with subject `"42"`, community `"7"`,
secret `"abc"`, created at `t = 0` and redeemed at `t = 100`. -/
theorem redeem_after_create_single_use_witness :
    verify 100 "42" (some "abc") (addPending 0 "42" "7" "abc" []) =
      (.ok ⟨"7", "abc", 0⟩, storeDelete (addPending 0 "42" "7" "abc" []) "42") ∧
    (verify 200 "42" (some "abc") (storeDelete (addPending 0 "42" "7" "abc" []) "42")).1 =
      .notFound :=
  redeem_after_create_single_use [] 0 100 200 "42" "7" "abc" (by decide)

/-- C4: redeeming with a wrong secret takes the mismatch branch and leaves
the store completely unchanged; the session is still redeemable with the
correct secret before expiry. -/
theorem redeem_wrong_secret_frame
    (store : Store) (u wrong : String) (t t' : Nat) (d : SessionData)
    (hd : storeGet store u = some d) (hw : wrong ≠ d.state)
    (hfresh : t' - d.timestamp ≤ expirationTime) :
    verify t u (some wrong) store = (.secretMismatch, store) ∧
    (verify t' u (some d.state) store).1 = .ok d := by
  unfold verify
  rw [hd]
  simp [hw, Nat.not_lt.mpr hfresh]

/-- C4 witness: wrong secret `"zzz"` against the stored `"abc"` leaves the
store unchanged and `"abc"` still redeems. -/
theorem redeem_wrong_secret_frame_witness :
    verify 100 "42" (some "zzz") [("42", ⟨"7", "abc", 0⟩)] =
      (.secretMismatch, [("42", ⟨"7", "abc", 0⟩)]) ∧
    (verify 100 "42" (some "abc") [("42", ⟨"7", "abc", 0⟩)]).1 = .ok ⟨"7", "abc", 0⟩ :=
  redeem_wrong_secret_frame [("42", ⟨"7", "abc", 0⟩)] "42" "zzz" 100 100
    ⟨"7", "abc", 0⟩ (by decide) (by decide) (by decide)

/-- C5 counterexample: for an expired session (created at `0`, redeemed at
`400000 > expirationTime`) a redeem call with a wrong secret does NOT take
the expired branch and does NOT remove the session — the secret comparison
runs first and returns with the store untouched.  This falsifies "any
redeem call for that subject returns the Expired rejection and removes the
session". -/
theorem expired_session_wrong_secret_not_deleted :
    (verify 400000 "42" (some "zzz") [("42", ⟨"7", "abc", 0⟩)]).1 ≠ .expired ∧
    (verify 400000 "42" (some "zzz") [("42", ⟨"7", "abc", 0⟩)]).2 =
      [("42", ⟨"7", "abc", 0⟩)] ∧
    400000 - (0 : Nat) > expirationTime := by
  decide

/-- C5 amended: for a session older than the expiration window, a redeem
call with the MATCHING secret returns `Expired` and removes the session,
so every subsequent attempt for that subject returns `NotFound`; a call
with a non-matching secret instead returns `SecretMismatch` and leaves the
expired session in place. -/
theorem redeem_expired_with_correct_secret_deletes
    (store : Store) (u wrong : String) (t t' : Nat) (p : Option String)
    (d : SessionData)
    (hd : storeGet store u = some d) (hexp : t - d.timestamp > expirationTime)
    (hw : wrong ≠ d.state) :
    verify t u (some d.state) store = (.expired, storeDelete store u) ∧
    (verify t' u p (storeDelete store u)).1 = .notFound ∧
    verify t u (some wrong) store = (.secretMismatch, store) := by
  refine ⟨?_, ?_, ?_⟩
  · unfold verify
    rw [hd]
    simp [hexp]
  · unfold verify
    rw [storeGet_storeDelete_self]
  · unfold verify
    rw [hd]
    simp [hw]

/-- C5 amended witness: session created at `0`, redeemed at `400000` with
the correct secret `"abc"` → expired and deleted; the follow-up attempt
returns `NotFound`. -/
theorem redeem_expired_with_correct_secret_deletes_witness :
    verify 400000 "42" (some "abc") [("42", ⟨"7", "abc", 0⟩)] =
      (.expired, storeDelete [("42", ⟨"7", "abc", 0⟩)] "42") ∧
    (verify 500000 "42" (some "abc") (storeDelete [("42", ⟨"7", "abc", 0⟩)] "42")).1 =
      .notFound ∧
    verify 400000 "42" (some "zzz") [("42", ⟨"7", "abc", 0⟩)] =
      (.secretMismatch, [("42", ⟨"7", "abc", 0⟩)]) :=
  redeem_expired_with_correct_secret_deletes [("42", ⟨"7", "abc", 0⟩)] "42" "zzz"
    400000 500000 (some "abc") ⟨"7", "abc", 0⟩ (by decide) (by decide) (by decide)

/-- C6: a new `create` for the same subject overwrites the pending session,
so redeeming the old secret afterwards (the fresh secret being different)
is never a success — it is `NotFound` or `SecretMismatch` (concretely the
mismatch branch, since the subject still has a pending session). -/
theorem new_create_invalidates_old_secret
    (store : Store) (t₀ t₁ t : Nat) (u g₁ g₂ oldSec newSec : String)
    (hne : oldSec ≠ newSec) :
    ((verify t u (some oldSec)
        (addPending t₁ u g₂ newSec (addPending t₀ u g₁ oldSec store))).1 =
        .notFound ∨
     (verify t u (some oldSec)
        (addPending t₁ u g₂ newSec (addPending t₀ u g₁ oldSec store))).1 =
        .secretMismatch) ∧
    ∀ d, (verify t u (some oldSec)
        (addPending t₁ u g₂ newSec (addPending t₀ u g₁ oldSec store))).1 ≠ .ok d := by
  have hmain : (verify t u (some oldSec)
      (addPending t₁ u g₂ newSec (addPending t₀ u g₁ oldSec store))).1 =
      .secretMismatch := by
    unfold verify addPending
    rw [storeGet_storeSet_self]
    simp [hne]
  refine ⟨Or.inr hmain, ?_⟩
  intro d
  rw [hmain]
  simp

/-- C6 witness: old secret `"old"` no longer redeems after a second
`create` stored fresh secret `"new"` for the same subject. -/
theorem new_create_invalidates_old_secret_witness :
    ((verify 100 "42" (some "old")
        (addPending 50 "42" "8" "new" (addPending 0 "42" "7" "old" []))).1 =
        .notFound ∨
     (verify 100 "42" (some "old")
        (addPending 50 "42" "8" "new" (addPending 0 "42" "7" "old" []))).1 =
        .secretMismatch) ∧
    ∀ d, (verify 100 "42" (some "old")
        (addPending 50 "42" "8" "new" (addPending 0 "42" "7" "old" []))).1 ≠ .ok d :=
  new_create_invalidates_old_secret [] 0 50 100 "42" "7" "8" "old" "new" (by decide)

/-! ## Secret generator (`src/bot.js` `generateState`)

```js
function generateState() {
  return Math.random().toString(36).substring(2, 15) +
         Math.random().toString(36).substring(2, 15)
}
```

`Math.random()` is not a cryptographically secure source; it returns a
double of the form `k / 2^53` with `k < 2^53` (53-bit mantissa).  We model
one invocation as a function of the two mantissa values it consumes.
`x.toString(36)` prints `"0."` followed by the base-36 digits of the
fractional part with trailing zero digits trimmed, and `substring(2, 15)`
keeps at most the first 13 of those digits; we model the digit string as a
list of base-36 digit values.  (Exact shortest-round-trip rounding of the
printed digits is immaterial here: every modelling choice keeps the output
a deterministic function of the two mantissa values, which is all the
entropy bound uses.) -/

/-- Number of distinct `Math.random()` outputs: doubles `k / 2^53`. -/
def mathRandomDenom : Nat := 2 ^ 53

/-- The `i`-th (0-based) fractional base-36 digit of `k / 2^53`. -/
def js36digit (k i : Nat) : Nat := k * 36 ^ (i + 1) / mathRandomDenom % 36

/-- Drop trailing zero digits, as `toString(36)` prints no trailing zeros. -/
def trimTrailingZeros (l : List Nat) : List Nat :=
  (l.reverse.dropWhile (· == 0)).reverse

/-- `Math.random().toString(36).substring(2, 15)` for mantissa value `k`:
at most the first 13 fractional base-36 digits. -/
def js36frac (k : Nat) : List Nat :=
  trimTrailingZeros ((List.range 13).map (js36digit k))

/-- `generateState`, as a function of the two `Math.random()` mantissa
values it consumes: the concatenation of the two digit strings. -/
def generateState (r₁ r₂ : Fin mathRandomDenom) : List Nat :=
  js36frac r₁.val ++ js36frac r₂.val

/-- C3: the secret space of `generateState` is a function of two 53-bit
`Math.random()` mantissas, so it has at most `2^106 < 2^120` elements —
strictly below the specified 120-bit entropy target (independently of the
fact that `Math.random` is not a cryptographically secure source).
Moreover the generator can emit the empty secret: both mantissas `0` give
`(0).toString(36) = "0"`, whose `substring(2, 15)` is empty. -/
theorem generateState_entropy_below_target :
    (Finset.image
        (fun p : Fin mathRandomDenom × Fin mathRandomDenom =>
          generateState p.1 p.2) Finset.univ).card < 2 ^ 120 ∧
    generateState ⟨0, by norm_num [mathRandomDenom]⟩
        ⟨0, by norm_num [mathRandomDenom]⟩ = [] := by
  constructor
  · have h1 :
        (Finset.image
            (fun p : Fin mathRandomDenom × Fin mathRandomDenom =>
              generateState p.1 p.2) Finset.univ).card ≤
          (Finset.univ : Finset (Fin mathRandomDenom × Fin mathRandomDenom)).card :=
      Finset.card_image_le
    have h2 :
        (Finset.univ : Finset (Fin mathRandomDenom × Fin mathRandomDenom)).card =
          2 ^ 53 * 2 ^ 53 := by
      rw [Finset.card_univ, Fintype.card_prod, Fintype.card_fin]
      rw [mathRandomDenom.eq_def]
    rw [h2] at h1
    exact lt_of_le_of_lt h1 (by norm_num)
  · decide

/-! ## Redemption orchestrator (`src/web.js`, `app.get("/callback")`)

The handler reads `code` and `state` from the query, destructures
`state.split(":")` into `[userId, guildId, stateToken]` (with no check on
the number of fields — missing fields are JS `undefined`, extra fields
are silently dropped), redeems the session, exchanges the code, fetches
the identity, compares the confirmed id with `userId`, and finally calls
`assignVerifiedRole(userId, guildId)`.

The two provider calls and the role grant are oracles.  The result
records the page rendered, the HTTP status, every `assignVerifiedRole`
invocation made (with its arguments), and the store after the request.
Only the missing-parameter branch sets an HTTP status explicitly (`400`);
every other branch responds through `res.send` with the default `200`. -/

/-- JS `String.prototype.split` with a single-character separator, on the
underlying character list: `"".split(":") = [""]`, `"a:b".split(":") =
["a", "b"]`, `":".split(":") = ["", ""]`. -/
def jsSplitList (sep : Char) : List Char → List (List Char)
  | [] => [[]]
  | c :: cs =>
      if c = sep then
        [] :: jsSplitList sep cs
      else
        match jsSplitList sep cs with
        | [] => [[c]]
        | h :: t => (c :: h) :: t

/-- JS `state.split(":")` (structurally recursive, unlike `String.splitOn`,
so that concrete runs evaluate). -/
def jsSplit (sep : Char) (s : String) : List String :=
  (jsSplitList sep s.data).map fun l => ⟨l⟩

/-- The provider identity record (`userResponse.data`): id and username. -/
structure DiscordUser where
  id : String
  username : String
deriving DecidableEq, Repr

/-- The OAuth2 provider as an oracle: `exchangeCode` models the token
endpoint (`none` = the axios call threw), `fetchIdentity` models
`/users/@me` (`none` = the axios call threw). -/
structure OAuthProvider where
  exchangeCode : String → Option String
  fetchIdentity : String → Option DiscordUser

/-- The page rendered by the handler, one constructor per `res.send`. -/
inductive Page where
  | invalidParams
  | invalidSession
  | oauthError
  | identityMismatch
  | roleFailed
  | success (username : String)
deriving DecidableEq, Repr

/-- HTTP status of each page: only the missing-parameter branch calls
`res.status(400)`; all other branches use `res.send`'s default `200`. -/
def Page.status : Page → Nat
  | .invalidParams => 400
  | _ => 200

/-- Observable outcome of one `/callback` request: the page, the
`assignVerifiedRole(userId, guildId)` calls made (the guild argument is
an `Option` because JS destructuring can leave it `undefined`), and the
verification store after the request. -/
structure CallbackResult where
  page : Page
  grantCalls : List (String × Option String)
  store : Store
deriving DecidableEq, Repr

/-- The `/callback` handler.  `grantRole` is the `assignVerifiedRole`
oracle (`true` = role assigned).  `code?`/`state?` are the query
parameters (`none` = absent; JS treats the empty string as falsy too). -/
def handleCallback (oauth : OAuthProvider) (grantRole : String → Option String → Bool)
    (now : Nat) (code? state? : Option String) (store : Store) : CallbackResult :=
  if code?.getD "" = "" ∨ state?.getD "" = "" then
    ⟨.invalidParams, [], store⟩
  else
    let code := code?.getD ""
    let parts := jsSplit ':' (state?.getD "")
    let userId := parts.headD ""
    let guildId? := parts[1]?
    let stateToken? := parts[2]?
    match verify now userId stateToken? store with
    | (.ok _data, store') =>
        match oauth.exchangeCode code with
        | none => ⟨.oauthError, [], store'⟩
        | some accessToken =>
            match oauth.fetchIdentity accessToken with
            | none => ⟨.oauthError, [], store'⟩
            | some user =>
                if user.id ≠ userId then
                  ⟨.identityMismatch, [], store'⟩
                else if grantRole userId guildId? then
                  ⟨.success user.username, [(userId, guildId?)], store'⟩
                else
                  ⟨.roleFailed, [(userId, guildId?)], store'⟩
    | (_, store') => ⟨.invalidSession, [], store'⟩

/-- C2 (code bug): the handler grants the role in the guild named by the
caller-controlled composite state parameter, not in the guild bound to
the session at create time.  Here the stored session binds subject `"42"`
to guild `"7"`, the callback carries `state = "42:9:abc"` with the
correct secret, the provider confirms id `"42"` — and the single grant
call targets guild `"9"`, while the session record says `"7"`. -/
theorem callback_grants_in_state_guild :
    handleCallback ⟨fun _ => some "tok", fun _ => some ⟨"42", "alice"⟩⟩
        (fun _ _ => true) 1000 (some "c") (some "42:9:abc")
        [("42", ⟨"7", "abc", 0⟩)] =
      ⟨.success "alice", [("42", some "9")], []⟩ ∧
    storeGet [("42", ⟨"7", "abc", 0⟩)] "42" = some ⟨"7", "abc", 0⟩ ∧
    some "9" ≠ some "7" := by
  decide

/-- C7: whenever the provider-confirmed identity id differs from the
subject id of the redeemed session, the handler renders the failure page
and makes no role-grant call. -/
theorem identity_mismatch_blocks_grant
    (oauth : OAuthProvider) (grantRole : String → Option String → Bool)
    (now : Nat) (c s : String) (store store' : Store)
    (d : SessionData) (tok : String) (user : DiscordUser)
    (hc : c ≠ "") (hs : s ≠ "")
    (hv : verify now ((jsSplit ':' s).headD "") (jsSplit ':' s)[2]? store =
      (.ok d, store'))
    (hx : oauth.exchangeCode c = some tok)
    (hf : oauth.fetchIdentity tok = some user)
    (hid : user.id ≠ (jsSplit ':' s).headD "") :
    handleCallback oauth grantRole now (some c) (some s) store =
      ⟨.identityMismatch, [], store'⟩ := by
  simp only [List.headD_eq_head?_getD] at hv hid
  simp [handleCallback, hc, hs, hv, hx, hf, hid]

/-- C7 witness: subject `"42"` redeems, but the provider confirms id
`"99"` — failure page, zero grant calls. -/
theorem identity_mismatch_blocks_grant_witness :
    handleCallback ⟨fun _ => some "tok", fun _ => some ⟨"99", "mallory"⟩⟩
        (fun _ _ => true) 1000 (some "c") (some "42:7:abc")
        [("42", ⟨"7", "abc", 0⟩)] =
      ⟨.identityMismatch, [], []⟩ :=
  identity_mismatch_blocks_grant ⟨fun _ => some "tok", fun _ => some ⟨"99", "mallory"⟩⟩
    (fun _ _ => true) 1000 "c" "42:7:abc" [("42", ⟨"7", "abc", 0⟩)] []
    ⟨"7", "abc", 0⟩ "tok" ⟨"99", "mallory"⟩
    (by decide) (by decide) (by decide) rfl rfl (by decide)



/-- C8 counterexample: a composite state with FOUR colon-delimited fields
(`"42:7:abc:x"`) is not rejected: destructuring silently drops the extra
field, the session is redeemed (a state mutation — the store goes from
one entry to empty), the role is granted, and the response status is
`200`, not 400-class. -/
theorem extra_fields_state_redeems_counterexample :
    handleCallback ⟨fun _ => some "tok", fun _ => some ⟨"42", "alice"⟩⟩
        (fun _ _ => true) 1000 (some "c") (some "42:7:abc:x")
        [("42", ⟨"7", "abc", 0⟩)] =
      ⟨.success "alice", [("42", some "7")], []⟩ ∧
    (jsSplit ':' "42:7:abc:x").length = 4 ∧
    Page.status (.success "alice") = 200 ∧
    ([] : Store) ≠ [("42", ⟨"7", "abc", 0⟩)] := by
  decide

/-- C8 amended: only a callback missing the `code` or `state` query
parameter gets the HTTP `400` response (with no store mutation).  A
composite state with FEWER than three colon-delimited fields never
partially redeems: its missing secret field fails the store's secret
comparison, so the handler renders the generic invalid-session page
(status `200`) with the store untouched and no grant call.  A state with
MORE than three fields, however, is partially parsed as its first three
fields and can redeem and mutate (see the counterexample). -/
theorem short_state_rejected_no_mutation
    (oauth : OAuthProvider) (grantRole : String → Option String → Bool)
    (now : Nat) (c s : String) (store : Store)
    (hc : c ≠ "") (hs : s ≠ "")
    (hlen : (jsSplit ':' s).length < 3) :
    handleCallback oauth grantRole now (some c) (some s) store =
      ⟨.invalidSession, [], store⟩ ∧
    handleCallback oauth grantRole now (some c) none store =
      ⟨.invalidParams, [], store⟩ := by
  have htok : (jsSplit ':' s)[2]? = none :=
    List.getElem?_eq_none (Nat.lt_succ_iff.mp hlen)
  constructor
  · have hver : verify now ((jsSplit ':' s).headD "") (jsSplit ':' s)[2]? store =
        ((verify now ((jsSplit ':' s).headD "") none store).1, store) := by
      rw [htok]
      unfold verify
      cases hgot : storeGet store ((jsSplit ':' s).headD "") with
      | none => simp
      | some data => simp
    have hres : ∀ d, (verify now ((jsSplit ':' s).headD "") none store).1 ≠ .ok d := by
      intro d
      unfold verify
      cases hgot : storeGet store ((jsSplit ':' s).headD "") with
      | none => simp
      | some data => simp
    simp only [List.headD_eq_head?_getD] at hver hres
    rcases h1 : (verify now ((jsSplit ':' s).head?.getD "") none store).1 with d | _ | _ | _
    · exact absurd h1 (hres d)
    all_goals
      simp [handleCallback, hc, hs, hver, h1]
  · simp [handleCallback]

/-- C8 amended witness: state `"42:7"` (two fields) against a live session
for `"42"` — invalid-session page, store unchanged; and a missing state
parameter gets the `400` page. -/
theorem short_state_rejected_no_mutation_witness :
    handleCallback ⟨fun _ => some "tok", fun _ => some ⟨"42", "alice"⟩⟩
        (fun _ _ => true) 1000 (some "c") (some "42:7")
        [("42", ⟨"7", "abc", 0⟩)] =
      ⟨.invalidSession, [], [("42", ⟨"7", "abc", 0⟩)]⟩ ∧
    handleCallback ⟨fun _ => some "tok", fun _ => some ⟨"42", "alice"⟩⟩
        (fun _ _ => true) 1000 (some "c") none
        [("42", ⟨"7", "abc", 0⟩)] =
      ⟨.invalidParams, [], [("42", ⟨"7", "abc", 0⟩)]⟩ :=
  short_state_rejected_no_mutation ⟨fun _ => some "tok", fun _ => some ⟨"42", "alice"⟩⟩
    (fun _ _ => true) 1000 "c" "42:7" [("42", ⟨"7", "abc", 0⟩)]
    (by decide) (by decide) (by decide)

/-! ## Guild settings store (`src/utils/guild-settings.js`)

```js
getSettings(guildId) {
  if (!this.settings.has(guildId)) {
    return { ...DEFAULT_MESSAGES }
  }
  return this.settings.get(guildId)
}
```

JavaScript objects are references into a heap, so whether `getSettings`
returns a copy or an alias is observable only in a model that keeps the
heap explicit.  A settings object is a list of named fields (a field's
value is `Option String`, `none` modelling JS `null`); the state carries
a heap of allocated objects, an allocation counter, and the
`guildId → address` table behind `this.settings`.  `{ ...DEFAULT_MESSAGES }`
allocates a fresh object holding a copy of the defaults;
`this.settings.get(guildId)` returns the stored address itself. -/

/-- A JS settings object: named fields with `null`-able string values. -/
abbrev SettingsObj := List (String × Option String)

/-- Field read `obj[k]` (outer `none` = field absent). -/
def objGet : SettingsObj → String → Option (Option String)
  | [], _ => none
  | (k', v) :: rest, k => if k' = k then some v else objGet rest k

/-- Field assignment `obj[k] = v`: update in place, else append. -/
def objSet : SettingsObj → String → Option String → SettingsObj
  | [], k, v => [(k, v)]
  | (k', v') :: rest, k, v =>
      if k' = k then (k, v) :: rest else (k', v') :: objSet rest k v

/-- `const DEFAULT_MESSAGES = { roleId: null, embedTitle: ..., ... }`. -/
def DEFAULT_MESSAGES : SettingsObj :=
  [ ("roleId", none),
    ("embedTitle", some "Welcome to {servername}!"),
    ("embedDescription", some "Before you can start chatting in **{servername}**, you need to verify yourself.\n\nClick the **Verify** button below to get started."),
    ("embedColor", some "#5865F2"),
    ("dmTitle", some "Verify Your Account"),
    ("dmDescription", some "Hi {username}, click the link below to verify yourself in **{servername}**.\n\nThis verification link is secure and will expire in 5 minutes."),
    ("dmColor", some "#5865F2") ]

/-- The mutable state of the settings store: a heap of allocated objects
(address → object), the next fresh address, and `this.settings` as a
`guildId → address` table. -/
structure GSState where
  heap : List (Nat × SettingsObj)
  next : Nat
  table : List (String × Nat)
deriving DecidableEq, Repr

/-- Heap read. -/
def heapGet : List (Nat × SettingsObj) → Nat → Option SettingsObj
  | [], _ => none
  | (a', o) :: rest, a => if a' = a then some o else heapGet rest a

/-- Heap update of an allocated address (no-op if the address is absent). -/
def heapSet : List (Nat × SettingsObj) → Nat → SettingsObj → List (Nat × SettingsObj)
  | [], _, _ => []
  | (a', o') :: rest, a, o =>
      if a' = a then (a, o) :: rest else (a', o') :: heapSet rest a o

/-- `this.settings.get(guildId)` (the address of the stored object). -/
def tableGet : List (String × Nat) → String → Option Nat
  | [], _ => none
  | (g', a) :: rest, g => if g' = g then some a else tableGet rest g

/-- `getSettings(guildId)`: if the guild has no record, allocate a fresh
copy of the defaults (`{ ...DEFAULT_MESSAGES }`) and return its address;
otherwise return the stored address itself — a live reference. -/
def getSettings (g : String) (st : GSState) : Nat × GSState :=
  match tableGet st.table g with
  | none => (st.next, ⟨(st.next, DEFAULT_MESSAGES) :: st.heap, st.next + 1, st.table⟩)
  | some a => (a, st)

/-- A caller mutating a settings object it received: `obj[k] = v` through
the returned reference. -/
def writeField (a : Nat) (k : String) (v : Option String) (st : GSState) : GSState :=
  match heapGet st.heap a with
  | none => st
  | some obj => { st with heap := heapSet st.heap a (objSet obj k v) }

/-- The stored settings of a guild as seen by a later read (what a later
`getSettings` on a configured guild dereferences to). -/
def readStored (g : String) (st : GSState) : Option SettingsObj :=
  (tableGet st.table g).bind (heapGet st.heap)

theorem heapGet_heapSet_ne (h : List (Nat × SettingsObj)) (a a' : Nat)
    (o : SettingsObj) (hne : a ≠ a') :
    heapGet (heapSet h a o) a' = heapGet h a' := by
  induction h with
  | nil => simp [heapSet]
  | cons hd tl ih =>
      by_cases heq : hd.1 = a
      · simp [heapSet, heapGet, heq, hne, ih]
      · simp [heapSet, heapGet, heq, ih]

theorem heapGet_heapSet_self (h : List (Nat × SettingsObj)) (a : Nat)
    (o o' : SettingsObj) (hmem : heapGet h a = some o') :
    heapGet (heapSet h a o) a = some o := by
  induction h with
  | nil => simp [heapGet] at hmem
  | cons hd tl ih =>
      by_cases heq : hd.1 = a
      · simp [heapSet, heapGet, heq]
      · simp [heapGet, heq] at hmem
        simp [heapSet, heapGet, heq, ih hmem]

/-- C9 counterexample: guild `"7"` has a stored settings object at
address `0`.  `getSettings "7"` returns address `0` itself — not a copy —
so a caller assigning through the returned reference changes the stored
settings seen by every later read: after the write, the stored record's
`embedTitle` is `"HACK"`, no longer `"T"`.  This falsifies "callers
receive copies, never live references". -/
theorem stored_settings_live_reference_counterexample :
    getSettings "7" ⟨[(0, [("embedTitle", some "T")])], 1, [("7", 0)]⟩ =
      (0, ⟨[(0, [("embedTitle", some "T")])], 1, [("7", 0)]⟩) ∧
    readStored "7" (writeField 0 "embedTitle" (some "HACK")
        ⟨[(0, [("embedTitle", some "T")])], 1, [("7", 0)]⟩) =
      some [("embedTitle", some "HACK")] ∧
    [("embedTitle", some ("HACK" : String))] ≠ [("embedTitle", some "T")] := by
  decide

theorem tableGet_mem (t : List (String × Nat)) (g : String) (a : Nat)
    (h : tableGet t g = some a) : ∃ p ∈ t, p.2 = a := by
  induction t with
  | nil => simp [tableGet] at h
  | cons hd tl ih =>
      by_cases heq : hd.1 = g
      · simp [tableGet, heq] at h
        exact ⟨hd, by simp, h⟩
      · simp [tableGet, heq] at h
        obtain ⟨p, hp, hpa⟩ := ih h
        exact ⟨p, by simp [hp], hpa⟩

/-- C9 amended: `getSettings` returns a copy only on the defaults path.
For a guild with no stored record it allocates a fresh object holding the
defaults, and (provided the allocator is fresh: no stored address equals
`st.next`) mutating that object leaves every guild's stored settings
unchanged.  For a configured guild it returns the stored address itself,
so a mutation through it IS visible to later reads of that guild. -/
theorem getSettings_copy_only_for_defaults
    (st : GSState) (hfresh : ∀ p ∈ st.table, p.2 ≠ st.next) :
    (∀ g, tableGet st.table g = none →
      heapGet (getSettings g st).2.heap (getSettings g st).1 = some DEFAULT_MESSAGES ∧
      ∀ g' k v, readStored g' (writeField (getSettings g st).1 k v (getSettings g st).2) =
        readStored g' st) ∧
    (∀ g a obj k v, tableGet st.table g = some a → heapGet st.heap a = some obj →
      getSettings g st = (a, st) ∧
      readStored g (writeField a k v st) = some (objSet obj k v)) := by
  constructor
  · intro g hg
    unfold getSettings
    rw [hg]
    refine ⟨by simp [heapGet], ?_⟩
    intro g' k v
    have hw : writeField st.next k v
        ⟨(st.next, DEFAULT_MESSAGES) :: st.heap, st.next + 1, st.table⟩ =
        ⟨(st.next, objSet DEFAULT_MESSAGES k v) :: st.heap, st.next + 1, st.table⟩ := by
      unfold writeField
      simp [heapGet, heapSet]
    rw [hw]
    unfold readStored
    cases hg' : tableGet st.table g' with
    | none => simp
    | some a' =>
        obtain ⟨p, hp, hpa⟩ := tableGet_mem st.table g' a' hg'
        have hne : st.next ≠ a' := fun h => hfresh p hp (hpa.trans h.symm)
        simp [heapGet, hne]
  · intro g a obj k v hg hobj
    refine ⟨?_, ?_⟩
    · unfold getSettings
      rw [hg]
    · unfold writeField readStored
      rw [hobj]
      simp [hg, heapGet_heapSet_self st.heap a (objSet obj k v) obj hobj]

/-- C9 amended witness: guild `"7"` stored at address `0`, guild `"8"`
unconfigured.  `getSettings "8"` hands out a fresh copy of the defaults
whose mutation leaves `"7"`'s stored record intact, while a write through
`"7"`'s returned address is seen by the later read. -/
theorem getSettings_copy_only_for_defaults_witness :
    (heapGet (getSettings "8" ⟨[(0, [("embedTitle", some "T")])], 1, [("7", 0)]⟩).2.heap
        (getSettings "8" ⟨[(0, [("embedTitle", some "T")])], 1, [("7", 0)]⟩).1 =
      some DEFAULT_MESSAGES ∧
    readStored "7" (writeField
        (getSettings "8" ⟨[(0, [("embedTitle", some "T")])], 1, [("7", 0)]⟩).1
        "embedTitle" (some "HACK")
        (getSettings "8" ⟨[(0, [("embedTitle", some "T")])], 1, [("7", 0)]⟩).2) =
      readStored "7" ⟨[(0, [("embedTitle", some "T")])], 1, [("7", 0)]⟩) ∧
    getSettings "7" ⟨[(0, [("embedTitle", some "T")])], 1, [("7", 0)]⟩ =
      (0, ⟨[(0, [("embedTitle", some "T")])], 1, [("7", 0)]⟩) ∧
    readStored "7" (writeField 0 "embedTitle" (some "HACK")
        ⟨[(0, [("embedTitle", some "T")])], 1, [("7", 0)]⟩) =
      some (objSet [("embedTitle", some "T")] "embedTitle" (some "HACK")) := by
  have h := getSettings_copy_only_for_defaults
    ⟨[(0, [("embedTitle", some "T")])], 1, [("7", 0)]⟩ (by decide)
  refine ⟨?_, ?_⟩
  · have h1 := h.1 "8" (by decide)
    exact ⟨h1.1, h1.2 "7" "embedTitle" (some "HACK")⟩
  · exact h.2 "7" 0 [("embedTitle", some "T")] "embedTitle" (some "HACK")
      (by decide) (by decide)

/-- C10: for a community with a stored settings record, `getSettings`
returns exactly that stored record — no field is filled in from the
defaults — and the documented defaults are handed out only when no record
exists for the community at all. -/
theorem getSettings_returns_stored_record_exactly
    (st : GSState) (g g' : String) (a : Nat) (obj : SettingsObj)
    (h1 : tableGet st.table g = some a) (h2 : heapGet st.heap a = some obj)
    (h3 : tableGet st.table g' = none) :
    getSettings g st = (a, st) ∧
    heapGet (getSettings g st).2.heap (getSettings g st).1 = some obj ∧
    heapGet (getSettings g' st).2.heap (getSettings g' st).1 = some DEFAULT_MESSAGES := by
  have hget : getSettings g st = (a, st) := by
    unfold getSettings
    rw [h1]
  refine ⟨hget, ?_, ?_⟩
  · rw [hget]
    exact h2
  · unfold getSettings
    rw [h3]
    simp [heapGet]

/-- C10 witness: guild `"7"`'s stored record holds only `roleId` — the
read returns exactly that one-field object, none of the default fields
are merged in; unconfigured guild `"8"` gets the full defaults. -/
theorem getSettings_returns_stored_record_exactly_witness :
    getSettings "7" ⟨[(0, [("roleId", some "r")])], 1, [("7", 0)]⟩ =
      (0, ⟨[(0, [("roleId", some "r")])], 1, [("7", 0)]⟩) ∧
    heapGet (getSettings "7" ⟨[(0, [("roleId", some "r")])], 1, [("7", 0)]⟩).2.heap
        (getSettings "7" ⟨[(0, [("roleId", some "r")])], 1, [("7", 0)]⟩).1 =
      some [("roleId", some "r")] ∧
    heapGet (getSettings "8" ⟨[(0, [("roleId", some "r")])], 1, [("7", 0)]⟩).2.heap
        (getSettings "8" ⟨[(0, [("roleId", some "r")])], 1, [("7", 0)]⟩).1 =
      some DEFAULT_MESSAGES :=
  getSettings_returns_stored_record_exactly
    ⟨[(0, [("roleId", some "r")])], 1, [("7", 0)]⟩ "7" "8" 0
    [("roleId", some "r")] (by decide) (by decide) (by decide)

end Verified
